import Mathlib

/-!
Shallow embedding of the vault-cert-manager repository, together with
theorems settling the frozen claims about its specification.

Conventions of the embedding:
* Go `time.Time` and `time.Duration` are both modelled as `Int` (a count of
  fixed time units; Go uses int64 nanoseconds).  Go's int64 division
  truncates toward zero, which is `Int.tdiv`.
* `time.Time.After` is a strict comparison: `t.After(u)` iff `u < t`.
* Fallible Go functions returning `(T, error)` become `Except String T`
  (or `Option`), and functions that always return `nil` errors keep an
  explicit always-`none` error component so the claim about them is visible.
* File-system and network effects are made explicit: a write is a value
  `FileWrite` (path, content, mode); the Vault backend, the TCP/TLS probe
  and the Consul/peer HTTP world are passed in as explicit environments.
-/

namespace VCM

/-- Go integer division on int64 truncates toward zero (`Int.tdiv`). -/
def goDiv (a b : Int) : Int := Int.tdiv a b

/- ------------------------------------------------------------------
   pkg/config/config.go — data model
   ------------------------------------------------------------------ -/

/-- Model of `config.HealthCheck` (pkg/config/config.go). -/
structure HealthCheck where
  tcp : String
  timeout : Int
  deriving DecidableEq, Repr

/-- Model of `config.CertificateConfig` (pkg/config/config.go). -/
structure CertificateConfig where
  name : String
  role : String
  commonName : String
  certificate : String
  key : String
  ttl : Int
  altNames : List String
  ipSans : List String
  onChange : String
  healthCheck : Option HealthCheck
  owner : String
  group : String
  deriving DecidableEq, Repr

/-- Model of `config.TokenAuth`. -/
structure TokenAuth where
  value : String
  deriving DecidableEq, Repr

/-- Model of `config.GCPAuth`. -/
structure GCPAuth where
  mountPath : String
  role : String
  type : String
  serviceAccount : String
  jwtExp : String
  credentialsFile : String
  deriving DecidableEq, Repr

/-- Model of `config.TLSAuth`. -/
structure TLSAuth where
  mountPath : String
  certFile : String
  keyFile : String
  name : String
  deriving DecidableEq, Repr

/-- Model of `config.AuthConfig`: the three optional variants (`*TokenAuth`,
`*GCPAuth`, `*TLSAuth` pointers in Go; `nil` becomes `none`). -/
structure AuthConfig where
  token : Option TokenAuth
  gcp : Option GCPAuth
  tls : Option TLSAuth
  deriving DecidableEq, Repr

/-- Model of `(*CertificateConfig).IsCombinedFile` (pkg/config/config.go:349-351):
true iff the cert path and the key path are the same string. -/
def IsCombinedFile (c : CertificateConfig) : Bool :=
  c.certificate == c.key

/-- The `authMethods` counter accumulated by `validateAuthConfig`:
one increment per non-nil variant. -/
def countAuthMethods (auth : AuthConfig) : Nat :=
  (if auth.token.isSome then 1 else 0) +
  (if auth.gcp.isSome then 1 else 0) +
  (if auth.tls.isSome then 1 else 0)

/-- Field validation of the token variant, in source order
(pkg/config/config.go:293-298). -/
def validateTokenPart (t : Option TokenAuth) : Except String Unit :=
  match t with
  | none => .ok ()
  | some tk =>
    if tk.value = "" then .error "token.value is required" else .ok ()

/-- Field validation of the gcp variant, returning the variant with its
mount-path default applied (pkg/config/config.go:300-314). -/
def validateGCPPart (g : Option GCPAuth) : Except String (Option GCPAuth) :=
  match g with
  | none => .ok none
  | some gc =>
    if gc.role = "" then .error "gcp.role is required"
    else if gc.type = "" then .error "gcp.type is required (must be 'iam' or 'gce')"
    else if gc.type ≠ "iam" ∧ gc.type ≠ "gce" then
      .error ("gcp.type must be 'iam' or 'gce', got '" ++ gc.type ++ "'")
    else if gc.mountPath = "" then .ok (some { gc with mountPath := "gcp" })
    else .ok (some gc)

/-- Field validation of the tls variant, returning the variant with its
mount-path default applied (pkg/config/config.go:316-327). -/
def validateTLSPart (t : Option TLSAuth) : Except String (Option TLSAuth) :=
  match t with
  | none => .ok none
  | some tl =>
    if tl.certFile = "" then .error "tls.cert_file is required"
    else if tl.keyFile = "" then .error "tls.key_file is required"
    else if tl.mountPath = "" then .ok (some { tl with mountPath := "cert" })
    else .ok (some tl)

/-- Model of `validateAuthConfig` (pkg/config/config.go:290-337).  Per-variant field
checks run first, in source order, each with an early error return; the
zero/multiple-variant checks run last.  The Go function mutates the config
in place (mount-path defaults); here the updated config is returned. -/
def validateAuthConfig (auth : AuthConfig) : Except String AuthConfig :=
  match validateTokenPart auth.token with
  | .error e => .error e
  | .ok _ =>
  match validateGCPPart auth.gcp with
  | .error e => .error e
  | .ok g =>
  match validateTLSPart auth.tls with
  | .error e => .error e
  | .ok t =>
  let authMethods := countAuthMethods auth
  if authMethods = 0 then
    .error "exactly one authentication method must be specified (token, gcp, or tls)"
  else if authMethods > 1 then
    .error ("only one authentication method can be specified, found " ++ toString authMethods)
  else
    .ok { auth with gcp := g, tls := t }

/- ------------------------------------------------------------------
   pkg/vault/client.go — issue request and response handling
   ------------------------------------------------------------------ -/

/-- Model of `vault.CertificateData` (pkg/vault/client.go:47-53).  `Expiration` is a
`time.Time`; Go's zero time is modelled as `0`. -/
structure CertificateData where
  certificate : String
  privateKey : String
  certificateChain : String
  serialNumber : String
  expiration : Int
  deriving DecidableEq, Repr

/-- A dynamically typed value in Vault's `map[string]interface{}` response
data, as far as `IssueCertificate`'s type assertions distinguish them:
a string, an int64, a list, or anything else. -/
inductive VVal where
  | str (s : String)
  | int (i : Int)
  | list (xs : List VVal)
  | other

/-- The keys of the Vault issue response that `IssueCertificate` reads;
`none` = key absent from the map. -/
structure IssueRespData where
  certificate : Option VVal
  privateKey : Option VVal
  caChain : Option VVal
  issuingCA : Option VVal
  serialNumber : Option VVal
  expiration : Option VVal

/-- Go's `v.(string)` type assertion on an optional map entry:
succeeds only when the key is present and holds a string. -/
def asGoString (v : Option VVal) : Option String :=
  match v with
  | some (.str s) => some s
  | _ => none

/-- The chain-part collection loop of `IssueCertificate`
(pkg/vault/client.go:146-151): keep exactly the string elements. -/
def chainStringParts (xs : List VVal) : List String :=
  xs.filterMap fun v => match v with | .str s => some s | _ => none

/-- The `certificateChain` value after the `ca_chain` block of
`IssueCertificate` (pkg/vault/client.go:143-156): the string elements of a
present `ca_chain` list joined by newline when there is at least one,
otherwise the empty string. -/
def joinedChain (d : IssueRespData) : String :=
  match d.caChain with
  | some (.list xs) =>
    let chainParts := chainStringParts xs
    if chainParts.length > 0 then String.intercalate "\n" chainParts else ""
  | _ => ""

/-- The `issuing_ca` fallback of `IssueCertificate`
(pkg/vault/client.go:158-162): used only when the joined chain is still
empty, and only when present as a non-empty string. -/
def issuingFallback (d : IssueRespData) : String :=
  match asGoString d.issuingCA with
  | some ca => if ca ≠ "" then ca else ""
  | none => ""

/-- Response handling of `IssueCertificate` (pkg/vault/client.go:129-177),
given the logical response data (`none` models `resp == nil || resp.Data == nil`). -/
def parseIssueResponse (d : Option IssueRespData) : Except String CertificateData :=
  match d with
  | none => .error "empty response from vault"
  | some data =>
    match asGoString data.certificate with
    | none => .error "certificate not found in vault response"
    | some cert =>
      if cert = "" then .error "certificate not found in vault response"
      else
        match asGoString data.privateKey with
        | none => .error "private_key not found in vault response"
        | some pk =>
          if pk = "" then .error "private_key not found in vault response"
          else
            let chain0 : String := joinedChain data
            let chain : String := if chain0 = "" then issuingFallback data else chain0
            let serial : String := (asGoString data.serialNumber).getD ""
            let exp : Int :=
              match data.expiration with
              | some (.int i) => i
              | _ => 0
            .ok { certificate := cert, privateKey := pk, certificateChain := chain,
                  serialNumber := serial, expiration := exp }

/-- The request body built by `IssueCertificate` (pkg/vault/client.go:96-122).
`none` = key omitted from the map.  The Go code renders `ttl` via
`Duration.String()`; the rendered duration is kept as its numeric value here
since no claim depends on the formatting. -/
structure IssueRequestData where
  commonName : String
  format : String
  ttl : Option Int
  altNames : Option String
  ipSans : Option String
  deriving DecidableEq, Repr

/-- The `validIPs` accumulation loop of `IssueCertificate`
(pkg/vault/client.go:113-118), parameterised by the `net.ParseIP` success
predicate: append each SAN that parses, in order. -/
def collectValidIPs (parseIPOk : String → Bool) : List String → List String
  | [] => []
  | ip :: rest =>
    if parseIPOk ip then ip :: collectValidIPs parseIPOk rest
    else collectValidIPs parseIPOk rest

/-- Request building of `IssueCertificate` (pkg/vault/client.go:96-122),
parameterised by the `net.ParseIP` success predicate.  Building never
fails: there is no error path before the HTTP write call. -/
def buildIssueRequestData (parseIPOk : String → Bool) (cfg : CertificateConfig) :
    IssueRequestData :=
  let ttlField : Option Int := if cfg.ttl > 0 then some cfg.ttl else none
  let altField : Option String :=
    if cfg.altNames.length > 0 then some (String.intercalate "," cfg.altNames) else none
  let ipField : Option String :=
    if cfg.ipSans.length > 0 then
      let validIPs := collectValidIPs parseIPOk cfg.ipSans
      if validIPs.length > 0 then some (String.intercalate "," validIPs) else none
    else none
  { commonName := cfg.commonName, format := "pem",
    ttl := ttlField, altNames := altField, ipSans := ipField }

/- ------------------------------------------------------------------
   pkg/cert/manager.go — certificate lifecycle
   ------------------------------------------------------------------ -/

/-- The part of a parsed `x509.Certificate` the manager reads. -/
structure GoCert where
  notAfter : Int
  deriving DecidableEq, Repr

/-- Model of `cert.ManagedCertificate` (pkg/cert/manager.go:46-53).
`certificate == nil` becomes `none`. -/
structure ManagedCertificate where
  config : CertificateConfig
  lastRenewed : Int
  nextRenewal : Int
  certificate : Option GoCert
  fingerprint : String
  renewalJitter : Int
  deriving DecidableEq, Repr

/-- Model of `needsRenewal` (pkg/cert/manager.go:131-138): false when no parsed
certificate is held; otherwise
`renewalThreshold := NotAfter.Add(-TTL/3 - RenewalJitter)` and the result is
`time.Now().After(renewalThreshold)`, a strict comparison.  Go's unary minus
binds tighter than division, so `-TTL/3` is `(-TTL)` tdiv `3`. -/
def needsRenewal (now : Int) (m : ManagedCertificate) : Bool :=
  match m.certificate with
  | none => false
  | some c =>
    let renewalThreshold := c.notAfter + (goDiv (-m.config.ttl) 3 - m.renewalJitter)
    decide (renewalThreshold < now)

/-- One file emitted by a write, with its permission mode bits. -/
structure FileWrite where
  path : String
  content : String
  mode : Nat
  deriving DecidableEq, Repr

/-- The `fullCert` string of `writeCertificateToDisk`
(pkg/cert/manager.go:194-197): the leaf, plus newline and chain when the
chain string is non-empty. -/
def fullCertOf (cd : CertificateData) : String :=
  if cd.certificateChain ≠ "" then cd.certificate ++ "\n" ++ cd.certificateChain
  else cd.certificate

/-- Model of `writeCertificateToDisk` (pkg/cert/manager.go:189-214) as the list of
file writes a successful call performs (directory creation and best-effort
ownership are not content- or mode-bearing and are omitted). -/
def writeCertificateToDisk (cfg : CertificateConfig) (cd : CertificateData) :
    List FileWrite :=
  let fullCert := fullCertOf cd
  if IsCombinedFile cfg then
    [{ path := cfg.certificate, content := fullCert ++ "\n" ++ cd.privateKey, mode := 0o600 }]
  else
    [{ path := cfg.certificate, content := fullCert, mode := 0o644 },
     { path := cfg.key, content := cd.privateKey, mode := 0o600 }]

/-- What a successful issuance yields once the written file is re-loaded:
the parsed certificate's `NotAfter` and the fingerprint of the written
material.  Supplied by the Vault/back-end environment. -/
structure IssuedOutcome where
  notAfter : Int
  fingerprint : String
  deriving DecidableEq, Repr

/-- A managed certificate together with the on-disk presence of its two
paths (the observable part of the file system that
`certificateExists` / `fileExists` consult). -/
structure ManagedState where
  mc : ManagedCertificate
  certOnDisk : Bool
  keyOnDisk : Bool
  deriving DecidableEq, Repr

/-- Model of `certificateExists` (pkg/cert/manager.go:141-150): for a combined
target only the cert path is checked, otherwise both paths. -/
def certificateExists (s : ManagedState) : Bool :=
  let certExists := s.certOnDisk
  let keyExists := s.keyOnDisk
  if IsCombinedFile s.mc.config then certExists
  else certExists && keyExists

/-- The back-end environment of one `issueCertificate` call
(Vault issue + disk write + re-load): `none` when any stage fails,
`some outcome` on success. -/
def VaultEnv : Type := CertificateConfig → Option IssuedOutcome

/-- Model of `issueCertificate` (pkg/cert/manager.go:158-186): on success the files
are written (both presence flags set; for a combined target the key path is
the cert path), the re-loaded certificate and fingerprint are stored, and
`LastRenewed` / `NextRenewal` are recomputed with the renewal formula.
Failure leaves the state unchanged (a mid-sequence failure is folded into
the environment's `none`). -/
def issueCertificate (env : VaultEnv) (now : Int) (s : ManagedState) :
    Option ManagedState :=
  match env s.mc.config with
  | none => none
  | some outcome =>
    let newMc : ManagedCertificate :=
      { s.mc with
        certificate := some { notAfter := outcome.notAfter },
        fingerprint := outcome.fingerprint,
        lastRenewed := now,
        nextRenewal :=
          outcome.notAfter + (goDiv (-s.mc.config.ttl) 3 - s.mc.renewalJitter) }
    some { mc := newMc, certOnDisk := true, keyOnDisk := true }

/-- The second per-target phase of `ProcessCertificates`
(pkg/cert/manager.go:107-116): if the material is missing on disk, issue;
an issue failure is logged and the target is left as-is. The `Nat` counts
issuance calls that succeeded in writing material. -/
def issuePhase (env : VaultEnv) (now : Int) (s : ManagedState) :
    ManagedState × Nat :=
  if certificateExists s then (s, 0)
  else
    match issueCertificate env now s with
    | none => (s, 0)
    | some s1 => (s1, 1)

/-- The per-target body of the `ProcessCertificates` loop
(pkg/cert/manager.go:96-117): the renewal phase (with `continue` on
failure, skipping the existence check), then the missing-on-disk phase.
`renewCertificate` is literally `issueCertificate` (line 153-155). -/
def processOne (env : VaultEnv) (now : Int) (s : ManagedState) :
    ManagedState × Nat :=
  if needsRenewal now s.mc then
    match issueCertificate env now s with
    | none => (s, 0)
    | some s1 =>
      let (s2, n) := issuePhase env now s1
      (s2, 1 + n)
  else issuePhase env now s

/-- Model of `ProcessCertificates` (pkg/cert/manager.go:95-119) over the registry in
iteration order: per-target processing, a count of successful issuances and
the function's error result — which the source returns as a literal `nil`
after the loop, regardless of per-target outcomes. -/
def processCertificates (env : VaultEnv) (now : Int) :
    List ManagedState → List ManagedState × Nat × Option String
  | [] => ([], 0, none)
  | s :: rest =>
    let (s1, n) := processOne env now s
    let (rest1, m, e) := processCertificates env now rest
    (s1 :: rest1, n + m, e)

/-- Two back-to-back `ProcessCertificates` passes over a single target with
no elapsed time (`now` identical), each with its own back-end environment:
total number of issuances performed for that target. -/
def twoCallIssueCount (env1 env2 : VaultEnv) (now : Int) (s : ManagedState) : Nat :=
  let (s1, n1) := processOne env1 now s
  let (_, n2) := processOne env2 now s1
  n1 + n2

/- ------------------------------------------------------------------
   pkg/health/checker.go — sync checking
   ------------------------------------------------------------------ -/

/-- Model of `health.CheckResult` (pkg/health/checker.go:41-45). -/
structure CheckResult where
  success : Bool
  error : Option String
  remoteFingerprint : String
  deriving DecidableEq, Repr

/-- The observable outcome of the network stages of one probe: whether the
TCP dial, the TLS dial and the deadline set succeed, and the peer
certificates (as raw DER byte lists) the TLS connection presents. -/
structure ProbeEnv where
  dialOk : Bool
  tlsOk : Bool
  deadlineOk : Bool
  peerCertDERs : List (List Nat)
  deriving DecidableEq, Repr

/-- Model of `(*TCPChecker).Check` (pkg/health/checker.go:64-116), parameterised by
the hex-SHA-256 function `hashHex` used by `calculateFingerprint` and by
the probe's network outcome.  The second component is the function's Go
`error` return, which is `nil` on every path of the source. -/
def Check (hashHex : List Nat → String) (env : ProbeEnv) (m : ManagedCertificate) :
    CheckResult × Option String :=
  match m.config.healthCheck with
  | none => ({ success := true, error := none, remoteFingerprint := "" }, none)
  | some hc =>
    if hc.tcp = "" then
      ({ success := true, error := none, remoteFingerprint := "" }, none)
    else if !env.dialOk then
      ({ success := false, error := some ("failed to connect to " ++ hc.tcp),
         remoteFingerprint := "" }, none)
    else if !env.tlsOk then
      ({ success := false,
         error := some ("failed to establish TLS connection to " ++ hc.tcp),
         remoteFingerprint := "" }, none)
    else if !env.deadlineOk then
      ({ success := false, error := some "failed to set deadline",
         remoteFingerprint := "" }, none)
    else
      match env.peerCertDERs with
      | [] => ({ success := false, error := some "no certificates received from server",
                 remoteFingerprint := "" }, none)
      | der :: _ =>
        ({ success := true, error := none, remoteFingerprint := hashHex der }, none)

/- ------------------------------------------------------------------
   pkg/web aggregator — rotate proxying (handleAPIRotate)
   ------------------------------------------------------------------ -/

/-- Model of `web.ConsulService`. -/
structure ConsulService where
  node : String
  address : String
  serviceAddress : String
  servicePort : Int
  deriving DecidableEq, Repr

/-- An incoming HTTP request as the handler sees it. -/
structure HttpRequest where
  method : String
  path : String
  body : String
  deriving DecidableEq, Repr

/-- An upstream HTTP response. -/
structure HttpResponse where
  status : Int
  body : String
  deriving DecidableEq, Repr

/-- The request the proxy sends upstream.  `body = none` models a `nil`
request body (`http.NewRequest(..., nil)`). -/
structure ProxiedRequest where
  method : String
  url : String
  body : Option String
  deriving DecidableEq, Repr

/-- What `handleAPIRotate` produces: the response written to the original
caller, and the upstream request it sent (if it got that far). -/
structure RotateOutcome where
  status : Int
  body : String
  proxied : Option ProxiedRequest
  deriving DecidableEq, Repr

/-- The rune loop of `handleAPIRotate` that splits the sub-path at its
FIRST `/` (checker_test.go aggregator source, `for i, c := range path`):
`none` when the path holds no slash (both names stay empty). -/
def splitAtSlash : List Char → Option (List Char × List Char)
  | [] => none
  | c :: cs =>
    if c = '/' then some ([], cs)
    else
      match splitAtSlash cs with
      | none => none
      | some (a, b) => some (c :: a, b)

/-- Model of `nodeName` and `certName` as parsed from the path after the
`/api/rotate/` prefix. -/
def nodeCertOfPath (path : String) : String × String :=
  match splitAtSlash path.data with
  | none => ("", "")
  | some (a, b) => (String.mk a, String.mk b)

/-- Model of `(*Aggregator).handleAPIRotate` (aggregator source in
src/pkg/health/checker_test.go, lines 273-351), with the two network
collaborators passed explicitly: `discover` is the fresh
`discoverServices()` call and `peer` executes the upstream HTTP request.
`http.Error` bodies carry their trailing newline.  The upstream request is
built by `http.NewRequest(http.MethodPost, targetURL, nil)`: method POST,
`nil` body.  On upstream success the peer's status code and body are
relayed verbatim. -/
def handleAPIRotate (discover : Except String (List ConsulService))
    (peer : ProxiedRequest → Except String HttpResponse)
    (req : HttpRequest) : RotateOutcome :=
  if req.method ≠ "POST" then
    { status := 405, body := "Method not allowed\n", proxied := none }
  else
    let path := req.path.drop 12
    let (nodeName, certName0) := nodeCertOfPath path
    if nodeName = "" then
      { status := 400, body := "Node name required: /api/rotate/\x7bnode\x7d/\x7bcert\x7d\n",
        proxied := none }
    else
      let certName := if certName0 = "" then "all" else certName0
      match discover with
      | .error e =>
        { status := 500, body := "Failed to discover services: " ++ e ++ "\n",
          proxied := none }
      | .ok services =>
        match services.find? (fun svc => svc.node == nodeName) with
        | none =>
          { status := 404, body := "Node not found: " ++ nodeName ++ "\n",
            proxied := none }
        | some svc =>
          let addr := if svc.serviceAddress = "" then svc.address else svc.serviceAddress
          let targetURL :=
            if certName = "all" then
              "http://" ++ addr ++ ":" ++ toString svc.servicePort ++ "/api/rotate/all"
            else
              "http://" ++ addr ++ ":" ++ toString svc.servicePort ++ "/api/rotate/" ++ certName
          let proxyReq : ProxiedRequest := { method := "POST", url := targetURL, body := none }
          match peer proxyReq with
          | .error e =>
            { status := 502, body := "Failed to proxy request: " ++ e ++ "\n",
              proxied := some proxyReq }
          | .ok resp =>
            { status := resp.status, body := resp.body, proxied := some proxyReq }

/-- The target URL `handleAPIRotate` builds for a matched peer, given the
raw cert-name segment of the path (empty means "all"):
`http://{addr}:{port}/api/rotate/{all|certName}` with the service address
preferred over the node address. -/
def rotateTargetURL (svc : ConsulService) (certName0 : String) : String :=
  let certName := if certName0 = "" then "all" else certName0
  let addr := if svc.serviceAddress = "" then svc.address else svc.serviceAddress
  if certName = "all" then
    "http://" ++ addr ++ ":" ++ toString svc.servicePort ++ "/api/rotate/all"
  else
    "http://" ++ addr ++ ":" ++ toString svc.servicePort ++ "/api/rotate/" ++ certName

/- ------------------------------------------------------------------
   Derived state of a successful issuance, and concrete fixtures used
   by counterexamples and witnesses
   ------------------------------------------------------------------ -/

/-- The state a successful `issueCertificate` leaves behind (see the
`issueCertificate` definition): both paths written, certificate and
fingerprint re-loaded, timestamps recomputed. -/
def issuedState (now : Int) (s : ManagedState) (o : IssuedOutcome) : ManagedState :=
  { mc := { s.mc with
      certificate := some { notAfter := o.notAfter },
      fingerprint := o.fingerprint,
      lastRenewed := now,
      nextRenewal := o.notAfter + (goDiv (-s.mc.config.ttl) 3 - s.mc.renewalJitter) },
    certOnDisk := true, keyOnDisk := true }

/-- A separate-path target: ttl 3h (10800 time units of one second). -/
def cfgSep : CertificateConfig :=
  { name := "web", role := "server", commonName := "web.example.com",
    certificate := "/etc/ssl/web.crt", key := "/etc/ssl/web.key",
    ttl := 10800, altNames := [], ipSans := [], onChange := "",
    healthCheck := none, owner := "", group := "" }

/-- A combined-file target: cert path and key path are the same string. -/
def cfgCombined : CertificateConfig :=
  { cfgSep with
    name := "combined", certificate := "/etc/ssl/web.pem",
    key := "/etc/ssl/web.pem" }

/-- The spec's renewal example at `now = 10000`:
`notAfter = now + 2h = 17200`, `ttl = 3h`, `jitter = 0`. -/
def mcSpecExample : ManagedCertificate :=
  { config := cfgSep, lastRenewed := 0, nextRenewal := 0,
    certificate := some { notAfter := 17200 }, fingerprint := "",
    renewalJitter := 0 }

/-- The same example with `jitter = 1h = 3600`. -/
def mcSpecExampleJitter : ManagedCertificate :=
  { mcSpecExample with renewalJitter := 3600 }

/-- A boundary case: `notAfter = 7200`, `ttl = 3h`, `jitter = 0`, so the
renewal threshold is exactly `3600`. -/
def mcBoundary : ManagedCertificate :=
  { mcSpecExample with certificate := some { notAfter := 7200 } }

/-- A target state that is due for renewal and present on disk
(`notAfter = 10100` is well inside the window at `now = 10000`). -/
def msDue : ManagedState :=
  { mc := { mcSpecExample with certificate := some { notAfter := 10100 } },
    certOnDisk := true, keyOnDisk := true }

/-- A target state with no material at all (first run). -/
def msFresh : ManagedState :=
  { mc := { mcSpecExample with certificate := none },
    certOnDisk := false, keyOnDisk := false }

/-- A back-end environment in which every issuance attempt fails. -/
def envFailAll : VaultEnv := fun _ => none

/-- A target with `ttl = 1h` and `jitter = 59min`, never issued. -/
def msShortTTL : ManagedState :=
  { mc := { config := { cfgSep with ttl := 3600 }, lastRenewed := 0,
            nextRenewal := 0, certificate := none, fingerprint := "",
            renewalJitter := 3540 },
    certOnDisk := false, keyOnDisk := false }

/-- A back-end that grants every request its full configured TTL from
`now = 10000`. -/
def envGrantFull : VaultEnv :=
  fun cfg => some { notAfter := 10000 + cfg.ttl, fingerprint := "fp1" }

/-- Issued material with a chain. -/
def cdWithChain : CertificateData :=
  { certificate := "LEAF", privateKey := "KEY", certificateChain := "CHAIN",
    serialNumber := "01:02", expiration := 99999 }

/-- Issued material without a chain. -/
def cdNoChain : CertificateData :=
  { cdWithChain with certificateChain := "" }

/-- An auth config with two populated variants (token and tls). -/
def authTwoVariants : AuthConfig :=
  { token := some { value := "s.abc" },
    gcp := none,
    tls := some { mountPath := "", certFile := "/c.pem", keyFile := "/k.pem", name := "" } }

/-- An auth config with no populated variant. -/
def authNoVariant : AuthConfig :=
  { token := none, gcp := none, tls := none }

/-- An auth config with exactly the token variant populated. -/
def authTokenOnly : AuthConfig :=
  { token := some { value := "s.abc" }, gcp := none, tls := none }

/-- A managed certificate with a TCP health-check endpoint configured. -/
def mcWithHC : ManagedCertificate :=
  { mcSpecExample with
    config := { cfgSep with healthCheck := some { tcp := "web.example.com:443", timeout := 5 } } }

/-- A probe world where the TCP dial fails. -/
def probeDialFail : ProbeEnv :=
  { dialOk := false, tlsOk := false, deadlineOk := false, peerCertDERs := [] }

/-- A probe world where everything succeeds and one peer certificate is
presented. -/
def probeOk : ProbeEnv :=
  { dialOk := true, tlsOk := true, deadlineOk := true, peerCertDERs := [[48, 130, 1, 10]] }

/-- A stand-in hex-SHA-256 function for concrete probe evaluations. -/
def hashFix : List Nat → String := fun der => "sha" ++ toString der.length

/-- A discovered peer named `n1` with no service address override. -/
def svcN1 : ConsulService :=
  { node := "n1", address := "10.0.0.1", serviceAddress := "", servicePort := 8080 }

/-- A discovery world returning exactly the peer `n1`. -/
def discN1 : Except String (List ConsulService) := .ok [svcN1]

/-- An upstream world answering every request with `200 rotated`. -/
def peerAlwaysOk : ProxiedRequest → Except String HttpResponse :=
  fun _ => .ok { status := 200, body := "rotated" }

/-- A rotate request carrying a non-empty body. -/
def reqWithBody : HttpRequest :=
  { method := "POST", path := "/api/rotate/n1/web", body := "force=true" }

/-- A full Vault issue response: all keys present and well-typed. -/
def respFull : IssueRespData :=
  { certificate := some (.str "LEAF"), privateKey := some (.str "KEY"),
    caChain := some (.list [.str "INT", .str "ROOT"]),
    issuingCA := some (.str "ISSUING"),
    serialNumber := some (.str "01:02"), expiration := some (.int 99999) }

/-- A minimal Vault issue response: only the two required keys. -/
def respMinimal : IssueRespData :=
  { certificate := some (.str "LEAF"), privateKey := some (.str "KEY"),
    caChain := none, issuingCA := none, serialNumber := none, expiration := none }

/-- A response missing the private key. -/
def respNoKey : IssueRespData :=
  { respMinimal with privateKey := none }

/-- A certificate config with a mix of parsable and unparsable IP SANs. -/
def cfgMixedSans : CertificateConfig :=
  { cfgSep with ipSans := ["10.0.0.1", "not-an-ip", "192.168.1.5"] }

/-- A certificate config whose IP SANs are all unparsable. -/
def cfgBadSans : CertificateConfig :=
  { cfgSep with ipSans := ["nope", "also-nope"] }

/-- A concrete stand-in for `net.ParseIP` success on the fixture SANs. -/
def ipOkFix : String → Bool :=
  fun s => s = "10.0.0.1" || s = "192.168.1.5"

/- ------------------------------------------------------------------
   Helper lemmas about the lifecycle step function
   ------------------------------------------------------------------ -/

/-- A certificate whose remaining life at `now` still exceeds
`ttl/3 + jitter` is not due. -/
theorem needsRenewal_of_bound (now : Int) (mc : ManagedCertificate) (c : GoCert)
    (hc : mc.certificate = some c)
    (hb : now ≤ c.notAfter - goDiv mc.config.ttl 3 - mc.renewalJitter) :
    needsRenewal now mc = false := by
  simp only [needsRenewal, hc, decide_eq_false_iff_not, not_lt, goDiv, Int.neg_tdiv]
  simp only [goDiv] at hb
  generalize Int.tdiv mc.config.ttl 3 = q at hb ⊢
  omega

/-- A successful back-end call makes `issueCertificate` produce the
issued state. -/
theorem issueCertificate_eq_some (env : VaultEnv) (now : Int) (s : ManagedState)
    (o : IssuedOutcome) (he : env s.mc.config = some o) :
    issueCertificate env now s = some (issuedState now s o) := by
  simp [issueCertificate, he, issuedState]

/-- A failing back-end call makes `issueCertificate` fail. -/
theorem issueCertificate_eq_none (env : VaultEnv) (now : Int) (s : ManagedState)
    (he : env s.mc.config = none) :
    issueCertificate env now s = none := by
  simp [issueCertificate, he]

/-- After a successful issuance both paths are on disk, so
`certificateExists` holds whether or not the target is combined. -/
theorem certificateExists_issuedState (now : Int) (s : ManagedState) (o : IssuedOutcome) :
    certificateExists (issuedState now s o) = true := by
  simp only [certificateExists, issuedState, Bool.and_self]
  split <;> rfl

/-- Per-target step, due for renewal, back-end failing: the target is left
unchanged and the existence check is skipped (`continue`). -/
theorem processOne_due_fail (env : VaultEnv) (now : Int) (s : ManagedState)
    (hdue : needsRenewal now s.mc = true) (he : env s.mc.config = none) :
    processOne env now s = (s, 0) := by
  simp [processOne, hdue, issueCertificate_eq_none env now s he]

/-- Per-target step, due for renewal, back-end granting: exactly one
issuance, material now on disk. -/
theorem processOne_due_ok (env : VaultEnv) (now : Int) (s : ManagedState)
    (o : IssuedOutcome) (hdue : needsRenewal now s.mc = true)
    (he : env s.mc.config = some o) :
    processOne env now s = (issuedState now s o, 1) := by
  simp [processOne, hdue, issueCertificate_eq_some env now s o he, issuePhase,
        certificateExists_issuedState]

/-- Per-target step, not due and material present: no action. -/
theorem processOne_notdue_exists (env : VaultEnv) (now : Int) (s : ManagedState)
    (hdue : needsRenewal now s.mc = false) (hex : certificateExists s = true) :
    processOne env now s = (s, 0) := by
  simp [processOne, hdue, issuePhase, hex]

/-- Per-target step, not due, material missing, back-end failing: the
target is left unchanged. -/
theorem processOne_notdue_missing_fail (env : VaultEnv) (now : Int) (s : ManagedState)
    (hdue : needsRenewal now s.mc = false) (hex : certificateExists s = false)
    (he : env s.mc.config = none) :
    processOne env now s = (s, 0) := by
  simp [processOne, hdue, issuePhase, hex, issueCertificate_eq_none env now s he]

/-- Per-target step, not due, material missing, back-end granting: exactly
one issuance. -/
theorem processOne_notdue_missing_ok (env : VaultEnv) (now : Int) (s : ManagedState)
    (o : IssuedOutcome) (hdue : needsRenewal now s.mc = false)
    (hex : certificateExists s = false) (he : env s.mc.config = some o) :
    processOne env now s = (issuedState now s o, 1) := by
  simp [processOne, hdue, issuePhase, hex, issueCertificate_eq_some env now s o he,
        certificateExists_issuedState]

/- ------------------------------------------------------------------
   C1 — the renewal-due predicate
   ------------------------------------------------------------------ -/

/-- C1 (counterexample): the claim asserts that a target with
`notAfter = now + 2h`, `ttl = 3h`, `jitter = 0` is due now, and that a
target is due exactly when `now >= notAfter - ttl/3 - jitter`.  At
`now = 10000` the code's `needsRenewal` returns `false` for that target
(its threshold is `now + 1h`), and at the exact threshold instant
(`now = 3600` for `mcBoundary`, where `now >= notAfter - ttl/3 - jitter`
holds) `needsRenewal` still returns `false` because `time.Time.After` is
strict. -/
theorem needsRenewal_spec_example_refuted :
    needsRenewal 10000 mcSpecExample = false ∧
    needsRenewal 10000 mcSpecExampleJitter = false ∧
    needsRenewal 3600 mcBoundary = false ∧
    mcBoundary.certificate = some { notAfter := 7200 } ∧
    (7200 : Int) - goDiv mcBoundary.config.ttl 3 - mcBoundary.renewalJitter ≤ 3600 := by
  refine ⟨by decide, by decide, by decide, rfl, by decide⟩

/-- C1 (amended): a target holding a parsed certificate is due for renewal
exactly when `now` is STRICTLY after `notAfter - ttl/3 - jitter` (Go int64
division truncating toward zero); consequently the spec's example target
(`notAfter = now + 2h`, `ttl = 3h`) is not yet due, with jitter 0 as well
as with jitter 1h. -/
theorem needsRenewal_strict_iff (now : Int) (m : ManagedCertificate) (c : GoCert)
    (h : m.certificate = some c) :
    needsRenewal now m = true ↔
      c.notAfter - goDiv m.config.ttl 3 - m.renewalJitter < now := by
  simp only [needsRenewal, h, goDiv, Int.neg_tdiv, decide_eq_true_eq]
  generalize Int.tdiv m.config.ttl 3 = q
  omega

/-- C1 (witness): at `now = 20000` the example target is past its strict
threshold `13600`, and `needsRenewal` indeed reports it due. -/
theorem needsRenewal_strict_iff_witness :
    needsRenewal 20000 mcSpecExample = true :=
  (needsRenewal_strict_iff 20000 mcSpecExample { notAfter := 17200 } rfl).mpr
    (by decide)

/- ------------------------------------------------------------------
   C2 — ProcessCertificates never escalates per-target failures
   ------------------------------------------------------------------ -/

/-- C2: `ProcessCertificates` returns a `nil` error for every back-end
environment, every time and every registry — in particular when some or
all per-target renewals/issuances fail — every registered target is
visited (the output list has one entry per target), and the head target's
outcome never affects how the tail is processed. -/
theorem processCertificates_no_aggregate_error (env : VaultEnv) (now : Int)
    (ss : List ManagedState) :
    (processCertificates env now ss).2.2 = none ∧
    (processCertificates env now ss).1.length = ss.length ∧
    (∀ s rest, ss = s :: rest →
      (processCertificates env now ss).1 =
        (processOne env now s).1 :: (processCertificates env now rest).1) := by
  induction ss with
  | nil => exact ⟨rfl, rfl, fun s rest h => by cases h⟩
  | cons s rest ih =>
    refine ⟨?_, ?_, ?_⟩
    · simp only [processCertificates]
      exact ih.1
    · simp only [processCertificates, List.length_cons]
      exact congrArg Nat.succ ih.2.1
    · intro s1 rest1 h
      cases h
      simp only [processCertificates]

/-- C2 (witness): a registry of two targets — one due for renewal, one
missing on disk — processed under a back-end where every per-target
attempt fails, still yields a `nil` aggregate error, and both targets are
visited. -/
theorem processCertificates_no_aggregate_error_witness :
    (processCertificates envFailAll 10000 [msDue, msFresh]).2.2 = none ∧
    (processCertificates envFailAll 10000 [msDue, msFresh]).1.length = 2 ∧
    (processCertificates envFailAll 10000 [msDue, msFresh]).1 =
      (processOne envFailAll 10000 msDue).1 ::
        (processCertificates envFailAll 10000 [msFresh]).1 := by
  obtain ⟨h1, h2, h3⟩ :=
    processCertificates_no_aggregate_error envFailAll 10000 [msDue, msFresh]
  exact ⟨h1, h2, h3 msDue [msFresh] rfl⟩

/- ------------------------------------------------------------------
   C3 — idempotence of back-to-back passes
   ------------------------------------------------------------------ -/

/-- C3 (counterexample): the claim quantifies over every jitter in [0, 1h)
and every configured TTL, but with `ttl = 1h` and `jitter = 59min` a
freshly issued certificate (granted its full TTL) is already inside the
renewal window, so the second of two immediate `ProcessCertificates`
passes issues again: two issuances for one target. -/
theorem twoCall_issue_twice_counterexample :
    twoCallIssueCount envGrantFull envGrantFull 10000 msShortTTL = 2 ∧
    0 ≤ msShortTTL.mc.renewalJitter ∧ msShortTTL.mc.renewalJitter < 3600 := by
  refine ⟨by decide, by decide, by decide⟩

/-- C3 (amended): two immediate `ProcessCertificates` passes perform at
most one issuance per target PROVIDED every certificate the first pass
could obtain for the target is not yet inside the renewal window at `now`
(`now <= notAfter - ttl/3 - jitter`, which holds e.g. whenever the CA
grants the full requested TTL and `jitter <= ttl - ttl/3`); without that
proviso a short-TTL target can be issued on both passes. -/
theorem twoCall_at_most_one_issue (env1 env2 : VaultEnv) (now : Int)
    (s : ManagedState)
    (h : ∀ o, env1 s.mc.config = some o →
      now ≤ o.notAfter - goDiv s.mc.config.ttl 3 - s.mc.renewalJitter) :
    twoCallIssueCount env1 env2 now s ≤ 1 := by
  cases hdue : needsRenewal now s.mc with
  | true =>
    cases he1 : env1 s.mc.config with
    | none =>
      simp only [twoCallIssueCount, processOne_due_fail env1 now s hdue he1]
      cases he2 : env2 s.mc.config with
      | none => simp [processOne_due_fail env2 now s hdue he2]
      | some o2 => simp [processOne_due_ok env2 now s o2 hdue he2]
    | some o1 =>
      have hnd : needsRenewal now (issuedState now s o1).mc = false :=
        needsRenewal_of_bound now _ { notAfter := o1.notAfter } rfl (h o1 he1)
      simp only [twoCallIssueCount, processOne_due_ok env1 now s o1 hdue he1]
      simp [processOne_notdue_exists env2 now _ hnd
        (certificateExists_issuedState now s o1)]
  | false =>
    cases hex : certificateExists s with
    | true =>
      simp [twoCallIssueCount, processOne_notdue_exists env1 now s hdue hex,
            processOne_notdue_exists env2 now s hdue hex]
    | false =>
      cases he1 : env1 s.mc.config with
      | none =>
        simp only [twoCallIssueCount,
          processOne_notdue_missing_fail env1 now s hdue hex he1]
        cases he2 : env2 s.mc.config with
        | none => simp [processOne_notdue_missing_fail env2 now s hdue hex he2]
        | some o2 => simp [processOne_notdue_missing_ok env2 now s o2 hdue hex he2]
      | some o1 =>
        have hnd : needsRenewal now (issuedState now s o1).mc = false :=
          needsRenewal_of_bound now _ { notAfter := o1.notAfter } rfl (h o1 he1)
        simp [twoCallIssueCount,
          processOne_notdue_missing_ok env1 now s o1 hdue hex he1,
          processOne_notdue_exists env2 now _ hnd
            (certificateExists_issuedState now s o1)]

/-- C3 (witness): with `ttl = 3h`, `jitter = 0` and a CA granting the full
TTL, two immediate passes over a never-issued target perform at most one
issuance (the proviso holds: `10000 <= 20800 - 3600 - 0`). -/
theorem twoCall_at_most_one_issue_witness :
    twoCallIssueCount envGrantFull envGrantFull 10000 msFresh ≤ 1 := by
  apply twoCall_at_most_one_issue
  intro o ho
  have hv : o = { notAfter := 10000 + msFresh.mc.config.ttl, fingerprint := "fp1" } := by
    have := ho.symm
    simpa [envGrantFull] using this
  subst hv
  decide

/- ------------------------------------------------------------------
   C9 — a certificate-less target never takes the renewal branch
   ------------------------------------------------------------------ -/

/-- C9: when no parsed certificate is held (`Certificate == nil`),
`needsRenewal` returns `false`, so in the `ProcessCertificates` loop such
a target is handled entirely by the missing-on-disk phase: the per-target
body collapses to `issuePhase`, and the renewal branch never fires. -/
theorem noCert_only_issue_branch (env : VaultEnv) (now : Int) (s : ManagedState)
    (h : s.mc.certificate = none) :
    needsRenewal now s.mc = false ∧
    processOne env now s = issuePhase env now s := by
  have hnr : needsRenewal now s.mc = false := by
    simp only [needsRenewal, h]
  refine ⟨hnr, ?_⟩
  simp only [processOne, hnr, Bool.false_eq_true, if_false]

/-- C9 (witness): a fresh target (no certificate, nothing on disk) under a
granting back-end is processed through the issue phase only. -/
theorem noCert_only_issue_branch_witness :
    needsRenewal 10000 msFresh.mc = false ∧
    processOne envGrantFull 10000 msFresh = issuePhase envGrantFull 10000 msFresh :=
  noCert_only_issue_branch envGrantFull 10000 msFresh rfl

/- ------------------------------------------------------------------
   C4 — combined-file detection and write layout
   ------------------------------------------------------------------ -/

/-- C4: a target is combined iff its cert path and key path are
byte-identical strings; a combined write is one file
`leaf[+newline+chain]+newline+privateKey` at mode 0600; a separate-path
write is the cert file (leaf, plus newline and chain when a chain is
present) at 0644 and the key file at 0600. -/
theorem writeCertificateToDisk_layout (cfg : CertificateConfig) (cd : CertificateData) :
    (IsCombinedFile cfg = true ↔ cfg.certificate = cfg.key) ∧
    (cfg.certificate = cfg.key →
      writeCertificateToDisk cfg cd =
        [{ path := cfg.certificate, content := fullCertOf cd ++ "\n" ++ cd.privateKey,
           mode := 0o600 }]) ∧
    (cfg.certificate ≠ cfg.key →
      writeCertificateToDisk cfg cd =
        [{ path := cfg.certificate, content := fullCertOf cd, mode := 0o644 },
         { path := cfg.key, content := cd.privateKey, mode := 0o600 }]) ∧
    (cd.certificateChain = "" → fullCertOf cd = cd.certificate) ∧
    (cd.certificateChain ≠ "" →
      fullCertOf cd = cd.certificate ++ "\n" ++ cd.certificateChain) := by
  refine ⟨?_, ?_, ?_, ?_, ?_⟩
  · simp [IsCombinedFile]
  · intro h; simp [writeCertificateToDisk, IsCombinedFile, h]
  · intro h; simp [writeCertificateToDisk, IsCombinedFile, h]
  · intro h; simp [fullCertOf, h]
  · intro h; simp [fullCertOf, h]

/-- C4 (witness): the combined fixture produces one 0600 file with
leaf, chain and key newline-separated; the separate-path fixture (no
chain) produces a 0644 cert file and a 0600 key file. -/
theorem writeCertificateToDisk_layout_witness :
    writeCertificateToDisk cfgCombined cdWithChain =
      [{ path := "/etc/ssl/web.pem", content := "LEAF\nCHAIN\nKEY", mode := 0o600 }] ∧
    writeCertificateToDisk cfgSep cdNoChain =
      [{ path := "/etc/ssl/web.crt", content := "LEAF", mode := 0o644 },
       { path := "/etc/ssl/web.key", content := "KEY", mode := 0o600 }] := by
  obtain ⟨-, h2, -, -, -⟩ := writeCertificateToDisk_layout cfgCombined cdWithChain
  obtain ⟨-, -, h3, -, -⟩ := writeCertificateToDisk_layout cfgSep cdNoChain
  exact ⟨(h2 rfl).trans (by decide), (h3 (by decide)).trans (by decide)⟩

/- ------------------------------------------------------------------
   C5 — auth-config exclusivity
   ------------------------------------------------------------------ -/

/-- Whenever the number of populated variants differs from one,
`validateAuthConfig` rejects — either through the final count checks or
through an earlier per-variant field error. -/
theorem validateAuthConfig_rejects_bad_count (auth : AuthConfig)
    (hne : countAuthMethods auth ≠ 1) :
    (validateAuthConfig auth).isOk = false := by
  obtain ⟨t, g, l⟩ := auth
  cases t <;> cases g <;> cases l <;>
    first
      | exact absurd rfl hne
      | (simp only [validateAuthConfig, validateTokenPart, validateGCPPart,
           validateTLSPart]
         (repeat' split) <;> first | rfl | simp_all [countAuthMethods])

/-- C5: `validateAuthConfig` accepts only configurations with exactly one
populated variant, and rejects every configuration with zero populated
variants and every configuration with more than one populated variant
(whether through the count checks or an earlier per-variant field
error). -/
theorem validateAuthConfig_exactly_one (auth : AuthConfig) :
    ((validateAuthConfig auth).isOk = true → countAuthMethods auth = 1) ∧
    (countAuthMethods auth = 0 → (validateAuthConfig auth).isOk = false) ∧
    (1 < countAuthMethods auth → (validateAuthConfig auth).isOk = false) := by
  refine ⟨?_, ?_, ?_⟩
  · intro h
    by_contra hne
    rw [validateAuthConfig_rejects_bad_count auth hne] at h
    exact Bool.noConfusion h
  · intro h0
    exact validateAuthConfig_rejects_bad_count auth (by omega)
  · intro h1
    exact validateAuthConfig_rejects_bad_count auth (by omega)

/-- C5 (witness): the two-variant fixture is rejected and the token-only
fixture's acceptance forces its count to one. -/
theorem validateAuthConfig_exactly_one_witness :
    (validateAuthConfig authTwoVariants).isOk = false ∧
    countAuthMethods authTokenOnly = 1 ∧
    (validateAuthConfig authNoVariant).isOk = false := by
  refine ⟨?_, ?_, ?_⟩
  · exact (validateAuthConfig_exactly_one authTwoVariants).2.2 (by decide)
  · exact (validateAuthConfig_exactly_one authTokenOnly).1 (by decide)
  · exact (validateAuthConfig_exactly_one authNoVariant).2.1 (by decide)

/- ------------------------------------------------------------------
   C6 — SyncChecker probes fail soft
   ------------------------------------------------------------------ -/

/-- C6: `Check` returns a `nil` hard error on every path; with no
health-check endpoint configured (no block, or an empty `tcp` address) it
returns `{success:true}` as a constant, independent of any probing; and a
connection (dial) or TLS handshake failure is reported inside the result
as `{success:false, error}`. -/
theorem check_never_hard_errors (hashHex : List Nat → String) (env : ProbeEnv)
    (m : ManagedCertificate) :
    (Check hashHex env m).2 = none ∧
    (m.config.healthCheck = none →
      Check hashHex env m =
        ({ success := true, error := none, remoteFingerprint := "" }, none)) ∧
    (∀ hc, m.config.healthCheck = some hc → hc.tcp = "" →
      Check hashHex env m =
        ({ success := true, error := none, remoteFingerprint := "" }, none)) ∧
    (∀ hc, m.config.healthCheck = some hc → hc.tcp ≠ "" → env.dialOk = false →
      (Check hashHex env m).1.success = false ∧
      ((Check hashHex env m).1.error).isSome = true) ∧
    (∀ hc, m.config.healthCheck = some hc → hc.tcp ≠ "" → env.tlsOk = false →
      (Check hashHex env m).1.success = false ∧
      ((Check hashHex env m).1.error).isSome = true) := by
  refine ⟨?_, ?_, ?_, ?_, ?_⟩
  · unfold Check
    (repeat' split) <;> rfl
  · intro h
    simp [Check, h]
  · intro hc hhc htcp
    simp [Check, hhc, htcp]
  · intro hc hhc htcp hdial
    simp [Check, hhc, htcp, hdial]
  · intro hc hhc htcp htls
    cases hdial : env.dialOk with
    | false => simp [Check, hhc, htcp, hdial]
    | true => simp [Check, hhc, htcp, hdial, htls]

/-- C6 (witness): a dial failure against the configured endpoint is a
`{success:false, error}` result, and a target without a health check gets
the constant success result. -/
theorem check_never_hard_errors_witness :
    (Check hashFix probeDialFail mcWithHC).1.success = false ∧
    ((Check hashFix probeDialFail mcWithHC).1.error).isSome = true ∧
    Check hashFix probeDialFail mcSpecExample =
      ({ success := true, error := none, remoteFingerprint := "" }, none) := by
  have hfail := (check_never_hard_errors hashFix probeDialFail mcWithHC).2.2.2.1
    { tcp := "web.example.com:443", timeout := 5 } rfl (by decide) rfl
  have hnone := (check_never_hard_errors hashFix probeDialFail mcSpecExample).2.1 rfl
  exact ⟨hfail.1, hfail.2, hnone⟩

/- ------------------------------------------------------------------
   C7 — the aggregator's rotate proxy
   ------------------------------------------------------------------ -/

/-- C7 (counterexample): the claim says the proxy forwards the original
request's body; but `handleAPIRotate` builds the upstream request with
`http.NewRequest(http.MethodPost, targetURL, nil)` — a `nil` body — so a
rotate request carrying the non-empty body `force=true` is proxied with no
body at all. -/
theorem proxyRotate_drops_body_counterexample :
    reqWithBody.body = "force=true" ∧
    (handleAPIRotate discN1 peerAlwaysOk reqWithBody).proxied =
      some { method := "POST", url := "http://10.0.0.1:8080/api/rotate/web",
             body := none } ∧
    ((handleAPIRotate discN1 peerAlwaysOk reqWithBody).proxied.map
        ProxiedRequest.body) ≠ some (some reqWithBody.body) := by
  refine ⟨rfl, by decide, by decide⟩

/-- C7 (amended): for a POST rotate request, the aggregator resolves the
node from a fresh discovery result, answers 404 when no discovered peer
bears the node name, sends the peer a POST to the built rotate URL with an
EMPTY (nil) body — the original request's body is not forwarded — and
relays the peer's status code and response body verbatim. -/
theorem handleAPIRotate_transparent (services : List ConsulService)
    (peer : ProxiedRequest → Except String HttpResponse) (req : HttpRequest)
    (n c : String)
    (hm : req.method = "POST")
    (hp : nodeCertOfPath (req.path.drop 12) = (n, c))
    (hn : n ≠ "") :
    (services.find? (fun svc => svc.node == n) = none →
      handleAPIRotate (.ok services) peer req =
        { status := 404, body := "Node not found: " ++ n ++ "\n", proxied := none }) ∧
    (∀ svc, services.find? (fun svc => svc.node == n) = some svc →
      (handleAPIRotate (.ok services) peer req).proxied =
        some { method := "POST", url := rotateTargetURL svc c, body := none } ∧
      (∀ resp,
        peer { method := "POST", url := rotateTargetURL svc c, body := none } = .ok resp →
        (handleAPIRotate (.ok services) peer req).status = resp.status ∧
        (handleAPIRotate (.ok services) peer req).body = resp.body)) := by
  constructor
  · intro hfind
    simp [handleAPIRotate, hm, hp, hn, hfind]
  · intro svc hfind
    constructor
    · simp [handleAPIRotate, hm, hp, hn, hfind, rotateTargetURL]
      split <;> rfl
    · intro resp hpeer
      constructor <;>
        simp [handleAPIRotate, hm, hp, hn, hfind, rotateTargetURL] <;>
        simp [rotateTargetURL] at hpeer <;>
        simp [hpeer]

/-- C7 (witness): against a discovery world holding peer `n1`, the rotate
request is proxied as a body-less POST to the built URL and the peer's
`200 rotated` answer is relayed verbatim. -/
theorem handleAPIRotate_transparent_witness :
    (handleAPIRotate (.ok [svcN1]) peerAlwaysOk reqWithBody).proxied =
      some { method := "POST", url := rotateTargetURL svcN1 "web", body := none } ∧
    (handleAPIRotate (.ok [svcN1]) peerAlwaysOk reqWithBody).status = 200 ∧
    (handleAPIRotate (.ok [svcN1]) peerAlwaysOk reqWithBody).body = "rotated" := by
  obtain ⟨-, hsome⟩ := handleAPIRotate_transparent [svcN1] peerAlwaysOk reqWithBody
    "n1" "web" rfl (by decide) (by decide)
  obtain ⟨hp, hrelay⟩ := hsome svcN1 (by decide)
  have hr := hrelay { status := 200, body := "rotated" } rfl
  exact ⟨hp, hr.1, hr.2⟩

/- ------------------------------------------------------------------
   C8 — issue-response requirements and chain fallback
   ------------------------------------------------------------------ -/

/-- C8: parsing a Vault issue response succeeds exactly when both
`certificate` and `private_key` are present as non-empty strings (a `nil`
response also fails); the resulting chain is the newline-join of
`ca_chain`'s string elements when that join is non-empty, and otherwise
falls back to a present non-empty `issuing_ca`; and removing
`serial_number` and `expiration` never changes whether parsing
succeeds. -/
theorem parseIssueResponse_required_and_chain (d : IssueRespData) :
    (parseIssueResponse none).isOk = false ∧
    ((parseIssueResponse (some d)).isOk = true ↔
      ((∃ c, asGoString d.certificate = some c ∧ c ≠ "") ∧
       (∃ k, asGoString d.privateKey = some k ∧ k ≠ ""))) ∧
    (∀ cd, parseIssueResponse (some d) = .ok cd →
      cd.certificateChain =
        (if joinedChain d ≠ "" then joinedChain d else issuingFallback d)) ∧
    ((parseIssueResponse
        (some { d with serialNumber := none, expiration := none })).isOk =
      (parseIssueResponse (some d)).isOk) := by
  refine ⟨rfl, ?_, ?_, ?_⟩
  · cases hc : asGoString d.certificate with
    | none => simp [parseIssueResponse, Except.isOk, Except.toBool, hc]
    | some cert =>
      by_cases hce : cert = ""
      · simp [parseIssueResponse, Except.isOk, Except.toBool, hc, hce]
      · cases hk : asGoString d.privateKey with
        | none => simp [parseIssueResponse, Except.isOk, Except.toBool, hc, hce, hk]
        | some pk =>
          by_cases hke : pk = ""
          · simp [parseIssueResponse, Except.isOk, Except.toBool, hc, hce, hk, hke]
          · simp [parseIssueResponse, Except.isOk, Except.toBool, hc, hce, hk, hke]
  · intro cd hok
    cases hc : asGoString d.certificate with
    | none => simp [parseIssueResponse, Except.isOk, Except.toBool, hc] at hok
    | some cert =>
      by_cases hce : cert = ""
      · simp [parseIssueResponse, Except.isOk, Except.toBool, hc, hce] at hok
      · cases hk : asGoString d.privateKey with
        | none => simp [parseIssueResponse, Except.isOk, Except.toBool, hc, hce, hk] at hok
        | some pk =>
          by_cases hke : pk = ""
          · simp [parseIssueResponse, Except.isOk, Except.toBool, hc, hce, hk, hke] at hok
          · simp [parseIssueResponse, Except.isOk, Except.toBool, hc, hce, hk, hke] at hok
            subst hok
            by_cases hj : joinedChain d = "" <;> simp [hj]
  · cases hc : asGoString d.certificate with
    | none => simp [parseIssueResponse, Except.isOk, Except.toBool, hc]
    | some cert =>
      by_cases hce : cert = ""
      · simp [parseIssueResponse, Except.isOk, Except.toBool, hc, hce]
      · cases hk : asGoString d.privateKey with
        | none => simp [parseIssueResponse, Except.isOk, Except.toBool, hc, hce, hk]
        | some pk =>
          by_cases hke : pk = ""
          · simp [parseIssueResponse, Except.isOk, Except.toBool, hc, hce, hk, hke]
          · simp [parseIssueResponse, Except.isOk, Except.toBool, hc, hce, hk, hke]

/-- C8 (witness): the minimal response (required keys only) parses
successfully, and a response missing `private_key` cannot parse. -/
theorem parseIssueResponse_required_and_chain_witness :
    (parseIssueResponse (some respMinimal)).isOk = true ∧
    (parseIssueResponse (some respNoKey)).isOk ≠ true := by
  constructor
  · exact ((parseIssueResponse_required_and_chain respMinimal).2.1).mpr
      ⟨⟨"LEAF", rfl, by decide⟩, ⟨"KEY", rfl, by decide⟩⟩
  · intro hok
    obtain ⟨-, k, hk, -⟩ :=
      ((parseIssueResponse_required_and_chain respNoKey).2.1).mp hok
    simp [respNoKey, respMinimal, asGoString] at hk

/- ------------------------------------------------------------------
   C10 — IP SANs are filtered, never fatal
   ------------------------------------------------------------------ -/

/-- The `validIPs` loop keeps exactly the SANs accepted by `net.ParseIP`,
in order. -/
theorem collectValidIPs_eq_filter (p : String → Bool) (xs : List String) :
    collectValidIPs p xs = xs.filter p := by
  induction xs with
  | nil => rfl
  | cons x rest ih =>
    by_cases hx : p x <;> simp [collectValidIPs, List.filter_cons, hx, ih]

/-- C10: every configured IP SAN rejected by `net.ParseIP` is silently
dropped (the kept list is exactly the parsable ones, and a dropped SAN is
never among them); when no configured SAN parses, the `ip_sans` key is
omitted from the request; when at least one parses, the key holds the
comma-join of exactly the parsable ones.  Request building has no error
path, so an unparsable SAN can never fail the call. -/
theorem issueRequest_ip_sans (p : String → Bool) (cfg : CertificateConfig) :
    collectValidIPs p cfg.ipSans = cfg.ipSans.filter p ∧
    ((buildIssueRequestData p cfg).ipSans = none ↔ cfg.ipSans.filter p = []) ∧
    (∀ s, s ∈ cfg.ipSans → p s = false → ¬ s ∈ cfg.ipSans.filter p) ∧
    (cfg.ipSans.filter p ≠ [] →
      (buildIssueRequestData p cfg).ipSans =
        some (String.intercalate "," (cfg.ipSans.filter p))) := by
  refine ⟨collectValidIPs_eq_filter p cfg.ipSans, ?_, ?_, ?_⟩
  · by_cases h0 : cfg.ipSans = []
    · simp [buildIssueRequestData, h0]
    · by_cases hf : cfg.ipSans.filter p = [] <;>
        simp [buildIssueRequestData, collectValidIPs_eq_filter, h0, hf,
          List.length_pos, List.length_eq_zero]
  · intro s hs hp hmem
    rw [List.mem_filter] at hmem
    rw [hp] at hmem
    exact Bool.noConfusion hmem.2
  · intro hf
    have h0 : cfg.ipSans ≠ [] := by
      intro h
      exact hf (by simp [h])
    simp [buildIssueRequestData, collectValidIPs_eq_filter, h0, hf,
      List.length_pos, List.length_eq_zero]

/-- C10 (witness): with one unparsable SAN among two parsable ones the
request carries exactly the parsable pair; with only unparsable SANs the
key is omitted. -/
theorem issueRequest_ip_sans_witness :
    (buildIssueRequestData ipOkFix cfgMixedSans).ipSans =
      some "10.0.0.1,192.168.1.5" ∧
    (buildIssueRequestData ipOkFix cfgBadSans).ipSans = none := by
  constructor
  · have h := (issueRequest_ip_sans ipOkFix cfgMixedSans).2.2.2 (by decide)
    exact h.trans (by decide)
  · exact ((issueRequest_ip_sans ipOkFix cfgBadSans).2.1).mpr (by decide)

end VCM
